import Mathlib

/-!
Verification development for `src/remote_grep.py`.

The Python program is shallowly embedded: pure string manipulation is
translated to Lean functions over `String`/`List Char`, and every external
effect (SSH connection, remote command execution over a channel, SFTP file
transfer, local directory creation) is modelled as an explicit oracle
argument of type `Except String α`, where `Except.error msg` stands for the
Python call raising an exception whose message is `msg` and `Except.ok`
stands for normal return.  Exit statuses of remote commands are modelled as
natural numbers (a POSIX exit status is a small non-negative integer).
-/

namespace RemoteGrep

/-- The apostrophe character (ASCII 39), used by `shlex.quote`. -/
def apos : Char := Char.ofNat 39

/-- One-character string holding an apostrophe. -/
def sq : String := String.singleton apos

/-- Characters that Python `shlex.quote` considers safe (the complement of
its unsafe-character regex under `re.ASCII`): ASCII letters, digits,
underscore, and the nine punctuation characters at-sign, percent, plus,
equals, colon, comma, dot, slash, hyphen. -/
def shlex_safe_char (c : Char) : Bool :=
  c.isAlphanum || c = '_' || c = '@' || c = '%' || c = '+' || c = '=' ||
  c = ':' || c = ',' || c = '.' || c = '/' || c = '-'

/-- Python `str.replace`, specialised to the single-character pattern that
`shlex.quote` uses (replacing each occurrence of `c` by `rep`). -/
def str_replace_char (s : String) (c : Char) (rep : String) : String :=
  String.join (s.data.map (fun ch => if ch = c then rep else String.singleton ch))

/-- Python `shlex.quote`: the empty string becomes two apostrophes, a string
of safe characters is returned unchanged, anything else is wrapped in
apostrophes with each inner apostrophe replaced by apostrophe,
double-quote, apostrophe, double-quote, apostrophe. -/
def shlex_quote (s : String) : String :=
  if s = "" then sq ++ sq
  else if s.data.all shlex_safe_char then s
  else sq ++ str_replace_char s apos (sq ++ "\"" ++ sq ++ "\"" ++ sq) ++ sq

/-- Mirrors the `HostConfig` dataclass of `remote_grep.py`. -/
structure HostConfig where
  hostname : String
  ip : String
  username : String
  password : String
  port : Nat := 22
deriving DecidableEq

/-- Mirrors `build_list_command`: the search term is passed through
`shlex.quote`, preceded by the `--` end-of-options marker, while
`path_glob` is deliberately left unquoted inside the inner command so the
remote shell expands it; the whole inner command is quoted once more for
`bash -c`. -/
def build_list_command (search : String) (path_glob : String) : String :=
  "bash -c " ++ shlex_quote ("LC_ALL=C grep -iln -- " ++ shlex_quote search ++ " " ++ path_glob)

/-- Result of executing one remote command over an established session:
the drained stdout and stderr texts and the exit status reported by
`stdout.channel.recv_exit_status()`. -/
structure ExecResult where
  stdout : String
  stderr : String
  exit_status : Nat
deriving DecidableEq

/-- The tuple returned by `run_list_on_host`:
`(hostname, exit_code, matching_paths, stderr_text)`. -/
structure HostResult where
  hostname : String
  exit_code : Nat
  paths : List String
  err : String
deriving DecidableEq

/-- Python `str.strip()` with no argument: remove leading and trailing
whitespace. -/
def py_strip (s : String) : String :=
  String.mk (((s.data.dropWhile Char.isWhitespace).reverse.dropWhile Char.isWhitespace).reverse)

/-- Split a character list at newline characters (Python `splitlines` over
newline-separated text; a trailing newline yields a final empty piece,
which the caller filters out anyway). -/
def split_lines : List Char → List Char → List String
  | [], acc => [String.mk acc.reverse]
  | c :: cs, acc =>
      if c = '\n' then String.mk acc.reverse :: split_lines cs []
      else split_lines cs (c :: acc)

/-- The path parsing of `run_list_on_host`, line 108:
`[line.strip() for line in out.splitlines() if line.strip()]`. -/
def parse_paths (out : String) : List String :=
  ((split_lines out.data []).map py_strip).filter (fun l => l ≠ "")

/-- Does the character list `s` start with `pat`? (observation helper used
in theorem statements). -/
def starts_with_chars : List Char → List Char → Bool
  | _, [] => true
  | [], _ :: _ => false
  | c :: cs, p :: ps => c = p && starts_with_chars cs ps

/-- Number of positions of `s` at which the pattern `pat` occurs
(observation helper used in theorem statements). -/
def count_sub : List Char → List Char → Nat
  | [], _ => 0
  | c :: cs, pat => (if starts_with_chars (c :: cs) pat then 1 else 0) + count_sub cs pat

/-- Number of occurrences of the substring `pat` in `s`. -/
def count_substr (s pat : String) : Nat := count_sub s.data pat.data

/-- Mirrors `run_list_on_host`.  `conn` models the `connect_ssh` call:
`Except.error e` is a caught `AuthenticationException`/`SSHException`/
`socket.error` with message `e`; on success the oracle maps the command
string handed to `exec_command` to its `ExecResult`.  The `finally` block
that closes the client (swallowing close failures) has no effect on the
returned value and is not modelled. -/
def run_list_on_host (host : HostConfig) (search : String) (path_glob : String)
    (conn : Except String (String → ExecResult)) : HostResult :=
  match conn with
  | Except.error e => ⟨host.hostname, 255, [], "SSH/Network error: " ++ e⟩
  | Except.ok ex =>
      ⟨host.hostname, (ex (build_list_command search path_glob)).exit_status,
        parse_paths (ex (build_list_command search path_glob)).stdout,
        (ex (build_list_command search path_glob)).stderr⟩

/-- Python `rpath.lstrip("/")`: strip all leading slashes. -/
def lstrip_slash (s : String) : String :=
  String.mk (s.data.dropWhile (fun c => c = '/'))

/-- Python `str.startswith` (character-list implementation). -/
def py_startswith (s p : String) : Bool := starts_with_chars s.data p.data

/-- Python `str.endswith` (character-list implementation). -/
def py_endswith (s p : String) : Bool := starts_with_chars s.data.reverse p.data.reverse

/-- POSIX `os.path.join` for two components. -/
def os_path_join (a : String) (b : String) : String :=
  if py_startswith b "/" then b
  else if a = "" then a ++ b
  else if py_endswith a "/" then a ++ b
  else a ++ "/" ++ b

/-- POSIX `os.path.dirname`: everything up to the last slash, with trailing
slashes stripped unless the prefix consists only of slashes. -/
def os_path_dirname (p : String) : String :=
  if ((p.data.reverse.dropWhile (fun c => c ≠ '/')).reverse).isEmpty then ""
  else if ((p.data.reverse.dropWhile (fun c => c ≠ '/')).reverse).all (fun c => c = '/') then
    String.mk ((p.data.reverse.dropWhile (fun c => c ≠ '/')).reverse)
  else
    String.mk (((p.data.reverse.dropWhile (fun c => c ≠ '/')).reverse).reverse.dropWhile
      (fun c => c = '/')).reverse

/-- The local target of `sftp_download_files`, line 134:
`os.path.join(dest_root, host.hostname, rpath.lstrip("/"))`
(Python's three-argument join is the left fold of the two-argument one). -/
def local_target (dest_root : String) (host : HostConfig) (rpath : String) : String :=
  os_path_join (os_path_join dest_root host.hostname) (lstrip_slash rpath)

/-- The per-file loop of `sftp_download_files` (lines 132-146).  `makedirs`
models `os.makedirs(local_dir, exist_ok=True)`: it sits OUTSIDE the inner
`try`, so its exception propagates (`Except.error`) and aborts the loop.
`sftp_get` models `sftp.get(rpath, local_path)`: its exceptions are all
caught by the inner `except` clauses (a warning is printed and the loop
continues), so an `Except.error` from it merely skips the append. -/
def sftp_fetch_loop (host : HostConfig) (dest_root : String)
    (makedirs : String → Except String Unit)
    (sftp_get : String → String → Except String Unit) :
    List String → List (String × String) → Except String (List (String × String))
  | [], downloaded => Except.ok downloaded
  | rpath :: rest, downloaded =>
      match makedirs (os_path_dirname (local_target dest_root host rpath)) with
      | Except.error e => Except.error e
      | Except.ok _ =>
          match sftp_get rpath (local_target dest_root host rpath) with
          | Except.ok _ =>
              sftp_fetch_loop host dest_root makedirs sftp_get rest
                (downloaded ++ [(rpath, local_target dest_root host rpath)])
          | Except.error _ =>
              sftp_fetch_loop host dest_root makedirs sftp_get rest downloaded

/-- Mirrors `sftp_download_files`.  `conn` models `connect_ssh` plus
`open_sftp`: on failure the function prints an error and returns the empty
`downloaded` list.  On success it runs the per-file loop; an uncaught
exception inside the loop (only `os.makedirs` can raise there) escapes the
function, which the `Except.error` result represents.  The `finally`
block closing sftp and client swallows its own failures and is not
modelled. -/
def sftp_download_files (host : HostConfig) (paths : List String) (dest_root : String)
    (conn : Except String Unit)
    (makedirs : String → Except String Unit)
    (sftp_get : String → String → Except String Unit) :
    Except String (List (String × String)) :=
  match conn with
  | Except.error _ => Except.ok []
  | Except.ok _ => sftp_fetch_loop host dest_root makedirs sftp_get paths []

/-- `fut.result()` handling in `main` (lines 233-237): a worker that raised
is converted to the tuple `(host.hostname, 255, [], "Unhandled exception: …")`. -/
def fut_result (host : HostConfig) (w : Except String HostResult) : HostResult :=
  match w with
  | Except.ok r => r
  | Except.error e => ⟨host.hostname, 255, [], "Unhandled exception: " ++ e⟩

/-- One entry of the `results` list in `main`, line 240:
`(hostname, exit_code, len(paths))`. -/
structure ResultRow where
  hostname : String
  exit_code : Nat
  n_paths : Nat
deriving DecidableEq

/-- Builds the `results` entry for one completed host. -/
def row_of (r : HostResult) : ResultRow := ⟨r.hostname, r.exit_code, r.paths.length⟩

/-- The retrieval guard of `main`, line 243:
`args.download == 1 and exit_code == 0 and paths`. -/
def download_invoked (download : Nat) (r : HostResult) : Bool :=
  decide (download = 1 ∧ r.exit_code = 0 ∧ r.paths ≠ [])

/-- The mutable state of `main`'s completion loop: the `results` list and
the `downloads_summary` list. -/
structure RunState where
  results : List ResultRow
  downloads_summary : List (String × String × String)
deriving DecidableEq

/-- Processing of one completed future in `main` (lines 231-249): append the
result row, then, if the retrieval guard holds, call `sftp_download_files`
(abstracted as the oracle `dl`) and extend `downloads_summary` with
`(hostname, remote, local)` triples.  An exception raised by the download
call propagates out of `main`'s loop (`Except.error`). -/
def process_completed (download : Nat)
    (dl : HostConfig → List String → Except String (List (String × String)))
    (st : RunState) (host : HostConfig) (w : Except String HostResult) :
    Except String RunState :=
  if download = 1 ∧ (fut_result host w).exit_code = 0 ∧ (fut_result host w).paths ≠ [] then
    match dl host (fut_result host w).paths with
    | Except.error e => Except.error e
    | Except.ok pairs =>
        Except.ok ⟨st.results ++ [row_of (fut_result host w)],
          st.downloads_summary ++ pairs.map (fun q => ((fut_result host w).hostname, q.1, q.2))⟩
  else Except.ok ⟨st.results ++ [row_of (fut_result host w)], st.downloads_summary⟩

/-- The `as_completed` loop of `main`, folded over a completion order: each
element pairs the submitted host with its worker result (`Except.error` if
the worker raised). -/
def main_loop (download : Nat)
    (dl : HostConfig → List String → Except String (List (String × String))) :
    List (HostConfig × Except String HostResult) → RunState → Except String RunState
  | [], st => Except.ok st
  | (h, w) :: rest, st =>
      match process_completed download dl st h w with
      | Except.error e => Except.error e
      | Except.ok st1 => main_loop download dl rest st1

/-- `matched_hosts` count in `main`, line 253: `code == 0 and cnt > 0`. -/
def matched_hosts (rs : List ResultRow) : Nat :=
  rs.countP (fun r => decide (r.exit_code = 0 ∧ 0 < r.n_paths))

/-- `no_match_hosts` count in `main`, line 254: `code == 1 or cnt == 0`. -/
def no_match_hosts (rs : List ResultRow) : Nat :=
  rs.countP (fun r => decide (r.exit_code = 1 ∨ r.n_paths = 0))

/-- `error_hosts` count in `main`, line 255: `code not in (0, 1)`. -/
def error_hosts (rs : List ResultRow) : Nat :=
  rs.countP (fun r => decide (¬ (r.exit_code = 0 ∨ r.exit_code = 1)))

/-- The return value of `main`, line 266: `0 if error_hosts == 0 else 1`. -/
def main_exit (rs : List ResultRow) : Nat :=
  if error_hosts rs = 0 then 0 else 1

/-- The printed summary block of `main` (lines 257-263). -/
structure RunSummary where
  hosts_total : Nat
  hosts_matched : Nat
  hosts_no_match : Nat
  hosts_errors : Nat
  files_downloaded : Nat
deriving DecidableEq

/-- Derives the summary from the collected results and downloads. -/
def summarize (rs : List ResultRow) (downloads : List (String × String × String)) : RunSummary :=
  ⟨rs.length, matched_hosts rs, no_match_hosts rs, error_hosts rs, downloads.length⟩

/-- The outcome taxonomy of the spec, read off the exit-code branches of
`print_host_results` (lines 202-211): 0 matched, 1 no match, 2 grep error,
255 SSH/network failure, anything else an unrecognized error. -/
inductive OutcomeStatus where
  | Matched
  | NoMatch
  | RemoteError
  | ConnectionFailure
deriving DecidableEq

/-- Classification of an exit code into the outcome taxonomy. -/
def classify (exit_code : Nat) : OutcomeStatus :=
  if exit_code = 0 then OutcomeStatus.Matched
  else if exit_code = 1 then OutcomeStatus.NoMatch
  else if exit_code = 2 then OutcomeStatus.RemoteError
  else if exit_code = 255 then OutcomeStatus.ConnectionFailure
  else OutcomeStatus.RemoteError

/-- The `downloads_summary` contribution of one completed host (empty when
the retrieval guard fails or the download oracle raises; in the latter
case `main_loop` produces `Except.error` anyway). -/
def dl_record (download : Nat)
    (dl : HostConfig → List String → Except String (List (String × String)))
    (p : HostConfig × Except String HostResult) : List (String × String × String) :=
  if download = 1 ∧ (fut_result p.1 p.2).exit_code = 0 ∧ (fut_result p.1 p.2).paths ≠ [] then
    match dl p.1 (fut_result p.1 p.2).paths with
    | Except.error _ => []
    | Except.ok pairs => pairs.map (fun q => ((fut_result p.1 p.2).hostname, q.1, q.2))
  else []

/-- Fixture host used by witnesses and counterexamples. -/
def H1 : HostConfig := ⟨"h1", "10.0.0.1", "u", "pw", 22⟩

/-- Second fixture host. -/
def H2 : HostConfig := ⟨"h2", "10.0.0.2", "u", "pw", 22⟩

/-- Fixture worker behaviour: every worker raises. -/
def behave1 : HostConfig → Except String HostResult := fun _ => Except.error "boom"

/-- Fixture download oracle returning no pairs. -/
def dl0 : HostConfig → List String → Except String (List (String × String)) :=
  fun _ _ => Except.ok []

/-- Fixture download oracle returning one pair. -/
def dlW : HostConfig → List String → Except String (List (String × String)) :=
  fun _ _ => Except.ok [("/a", "local")]

/-- Fixture worker result: host h1 matched one path. -/
def wA : Except String HostResult := Except.ok ⟨"h1", 0, ["/a"], ""⟩

/-- Fixture worker result: host h2 found no match. -/
def wB : Except String HostResult := Except.ok ⟨"h2", 1, [], ""⟩

/-- Fixture execution oracle: exit status 1 with stray stdout. -/
def strayExec : String → ExecResult := fun _ => ⟨"stray\n", "", 1⟩

/-- Fixture execution oracle: a remote command exiting with status 255. -/
def exit255Exec : String → ExecResult := fun _ => ⟨"", "", 255⟩

/-- Fixture makedirs oracle failing on the directory of the first fixture
file. -/
def mkFailA : String → Except String Unit :=
  fun d => if d = "out/h1/a" then Except.error "mkdir denied" else Except.ok ()

/-- Fixture makedirs oracle that always succeeds. -/
def mkOK : String → Except String Unit := fun _ => Except.ok ()

/-- Fixture sftp-get oracle that always succeeds. -/
def getOK : String → String → Except String Unit := fun _ _ => Except.ok ()

/-- Fixture sftp-get oracle failing on the first fixture file. -/
def getFailF1 : String → String → Except String Unit :=
  fun r _ => if r = "/a/f1" then Except.error "No such file" else Except.ok ()

lemma process_completed_ok (download : Nat)
    (dl : HostConfig → List String → Except String (List (String × String)))
    (st : RunState) (host : HostConfig) (w : Except String HostResult) (st2 : RunState)
    (hok : process_completed download dl st host w = Except.ok st2) :
    st2.results = st.results ++ [row_of (fut_result host w)] ∧
    st2.downloads_summary = st.downloads_summary ++ dl_record download dl (host, w) := by
  unfold process_completed at hok
  unfold dl_record
  by_cases hc : download = 1 ∧ (fut_result host w).exit_code = 0 ∧ (fut_result host w).paths ≠ []
  · rw [if_pos hc] at hok
    rw [if_pos hc]
    cases hdl : dl host (fut_result host w).paths with
    | error e => rw [hdl] at hok; cases hok
    | ok pairs => rw [hdl] at hok; cases hok; exact ⟨rfl, rfl⟩
  · rw [if_neg hc] at hok
    rw [if_neg hc]
    cases hok
    exact ⟨rfl, by simp⟩

lemma main_loop_ok (download : Nat)
    (dl : HostConfig → List String → Except String (List (String × String))) :
    ∀ (l : List (HostConfig × Except String HostResult)) (st st2 : RunState),
    main_loop download dl l st = Except.ok st2 →
    st2.results = st.results ++ l.map (fun p => row_of (fut_result p.1 p.2)) ∧
    st2.downloads_summary = st.downloads_summary ++ l.flatMap (dl_record download dl) := by
  intro l
  induction l with
  | nil =>
      intro st st2 h
      cases h
      exact ⟨by simp, by simp⟩
  | cons p rest ih =>
      obtain ⟨ph, pw⟩ := p
      intro st st2 h
      unfold main_loop at h
      cases hpc : process_completed download dl st ph pw with
      | error e => rw [hpc] at h; cases h
      | ok st1 =>
          rw [hpc] at h
          obtain ⟨hr1, hd1⟩ := process_completed_ok download dl st ph pw st1 hpc
          obtain ⟨hr2, hd2⟩ := ih st1 st2 h
          constructor
          · rw [hr2, hr1]
            simp
          · rw [hd2, hd1]
            simp

lemma sftp_fetch_loop_mk_ok (host : HostConfig) (dest : String)
    (mk : String → Except String Unit) (get : String → String → Except String Unit)
    (hmk : ∀ d, mk d = Except.ok ()) :
    ∀ (paths : List String) (acc : List (String × String)),
    sftp_fetch_loop host dest mk get paths acc =
      Except.ok (acc ++ paths.filterMap (fun r =>
        match get r (local_target dest host r) with
        | Except.ok _ => some (r, local_target dest host r)
        | Except.error _ => none)) := by
  intro paths
  induction paths with
  | nil => intro acc; simp [sftp_fetch_loop]
  | cons rpath rest ih =>
      intro acc
      unfold sftp_fetch_loop
      rw [hmk]
      cases hget : get rpath (local_target dest host rpath) with
      | ok u => simp [List.filterMap_cons, hget, ih]
      | error e => simp [List.filterMap_cons, hget, ih]

lemma classify_error_iff (c : Nat) :
    (classify c = OutcomeStatus.RemoteError ∨ classify c = OutcomeStatus.ConnectionFailure) ↔
    ¬ (c = 0 ∨ c = 1) := by
  unfold classify
  split_ifs <;> simp_all

lemma classify_matched_iff (c : Nat) : classify c = OutcomeStatus.Matched ↔ c = 0 := by
  unfold classify
  split_ifs <;> simp_all

lemma classify_no_match_iff (c : Nat) : classify c = OutcomeStatus.NoMatch ↔ c = 1 := by
  unfold classify
  split_ifs <;> simp_all

/-- C1: for every list of hosts submitted to the scheduler, exactly one
result record is produced per submitted host — the collected `results`
list is a permutation of one row per submitted host, and of the same
length — even when the worker itself throws before any remote command
runs, in which case that host's record carries exit code 255, classified
as ConnectionFailure. -/
theorem C1_one_outcome_per_host
    (hosts : List HostConfig) (behave : HostConfig → Except String HostResult)
    (download : Nat)
    (dl : HostConfig → List String → Except String (List (String × String)))
    (order : List (HostConfig × Except String HostResult)) (st : RunState)
    (hperm : order.Perm (hosts.map (fun h => (h, behave h))))
    (hrun : main_loop download dl order ⟨[], []⟩ = Except.ok st) :
    st.results.Perm (hosts.map (fun h => row_of (fut_result h (behave h)))) ∧
    st.results.length = hosts.length ∧
    (∀ h e, behave h = Except.error e →
      fut_result h (behave h) = ⟨h.hostname, 255, [], "Unhandled exception: " ++ e⟩ ∧
      classify (fut_result h (behave h)).exit_code = OutcomeStatus.ConnectionFailure) := by
  obtain ⟨hr, _⟩ := main_loop_ok download dl order ⟨[], []⟩ st hrun
  have hres : st.results = order.map (fun p => row_of (fut_result p.1 p.2)) := by simpa using hr
  have hmap := hperm.map (fun p => row_of (fut_result p.1 p.2))
  rw [← hres] at hmap
  have hcomp : (hosts.map (fun h => (h, behave h))).map (fun p => row_of (fut_result p.1 p.2)) =
      hosts.map (fun h => row_of (fut_result h (behave h))) := by
    simp
  rw [hcomp] at hmap
  refine ⟨hmap, ?_, ?_⟩
  · simpa using hmap.length_eq
  · intro h e hbe
    rw [hbe]
    exact ⟨rfl, rfl⟩

/-- C1 witness: one submitted host whose worker raises; the hypotheses of
the theorem hold at this concrete completion order. -/
theorem C1_one_outcome_per_host_witness :
    (⟨[⟨"h1", 255, 0⟩], []⟩ : RunState).results.Perm
      ([H1].map (fun h => row_of (fut_result h (behave1 h)))) ∧
    (⟨[⟨"h1", 255, 0⟩], []⟩ : RunState).results.length = [H1].length ∧
    (∀ h e, behave1 h = Except.error e →
      fut_result h (behave1 h) = ⟨h.hostname, 255, [], "Unhandled exception: " ++ e⟩ ∧
      classify (fut_result h (behave1 h)).exit_code = OutcomeStatus.ConnectionFailure) :=
  C1_one_outcome_per_host [H1] behave1 0 dl0 [(H1, behave1 H1)] ⟨[⟨"h1", 255, 0⟩], []⟩
    (List.Perm.refl _) rfl

/-- C2 counterexample: a remote execution finishing with exit status 1 and
non-empty stray stdout yields matchedPaths equal to the parsed stray line,
not the empty list — the output is not ignored on this path. -/
theorem C2_counterexample :
    run_list_on_host H1 "needle" "/tmp/a" (Except.ok strayExec) = ⟨"h1", 1, ["stray"], ""⟩ ∧
    (run_list_on_host H1 "needle" "/tmp/a" (Except.ok strayExec)).paths ≠ [] :=
  ⟨rfl, by decide⟩

/-- C2 amended: a remote execution finishing with exit status 1 is
classified NoMatch and never triggers retrieval, but its matchedPaths
field equals the parsed stdout lines (empty only when stdout has no
non-blank line) rather than being forced empty. -/
theorem C2_amended_exit1 (h : HostConfig) (s g : String) (ex : String → ExecResult)
    (hexit : (ex (build_list_command s g)).exit_status = 1) :
    run_list_on_host h s g (Except.ok ex) =
      ⟨h.hostname, 1, parse_paths (ex (build_list_command s g)).stdout,
        (ex (build_list_command s g)).stderr⟩ ∧
    classify (run_list_on_host h s g (Except.ok ex)).exit_code = OutcomeStatus.NoMatch ∧
    (∀ download, download_invoked download (run_list_on_host h s g (Except.ok ex)) = false) := by
  refine ⟨?_, ?_, ?_⟩
  · have hred : run_list_on_host h s g (Except.ok ex) =
        ⟨h.hostname, (ex (build_list_command s g)).exit_status,
          parse_paths (ex (build_list_command s g)).stdout,
          (ex (build_list_command s g)).stderr⟩ := rfl
    rw [hred, hexit]
  · have h1 : (run_list_on_host h s g (Except.ok ex)).exit_code = 1 := hexit
    rw [h1]
    decide
  · intro download
    have h1 : (run_list_on_host h s g (Except.ok ex)).exit_code = 1 := hexit
    simp [download_invoked, h1]

/-- C2 amended witness: the stray-output fixture discharges the exit-status
hypothesis. -/
theorem C2_amended_exit1_witness :
    run_list_on_host H1 "needle" "/tmp/a" (Except.ok strayExec) =
      ⟨H1.hostname, 1, parse_paths (strayExec (build_list_command "needle" "/tmp/a")).stdout,
        (strayExec (build_list_command "needle" "/tmp/a")).stderr⟩ ∧
    classify (run_list_on_host H1 "needle" "/tmp/a" (Except.ok strayExec)).exit_code =
      OutcomeStatus.NoMatch ∧
    (∀ download, download_invoked download
      (run_list_on_host H1 "needle" "/tmp/a" (Except.ok strayExec)) = false) :=
  C2_amended_exit1 H1 "needle" "/tmp/a" strayExec rfl

/-- C3 counterexample: with two matched paths, a failure of local directory
creation for the first file aborts the batch — the exception escapes
`sftp_download_files` and the second file is never recorded — although
with directory creation succeeding both files would have downloaded. -/
theorem C3_counterexample :
    sftp_download_files H1 ["/a/f1", "/b/f2"] "out" (Except.ok ()) mkFailA getOK =
      Except.error "mkdir denied" ∧
    sftp_download_files H1 ["/a/f1", "/b/f2"] "out" (Except.ok ()) mkOK getOK =
      Except.ok [("/a/f1", "out/h1/a/f1"), ("/b/f2", "out/h1/b/f2")] :=
  ⟨rfl, rfl⟩

/-- C3 amended: failures of the SFTP transfer itself are caught per file
and never escape the retriever, but a failure to create the local
intermediate directories for one file aborts the remaining files and
propagates past the retriever boundary. -/
theorem C3_amended_scoped_failures (h : HostConfig) (dest : String)
    (mk mk2 : String → Except String Unit) (get : String → String → Except String Unit)
    (paths : List String) (p : String) (rest : List String) (e : String)
    (hmk : ∀ d, mk d = Except.ok ())
    (hbad : mk2 (os_path_dirname (local_target dest h p)) = Except.error e) :
    (∃ l, sftp_download_files h paths dest (Except.ok ()) mk get = Except.ok l) ∧
    sftp_download_files h (p :: rest) dest (Except.ok ()) mk2 get = Except.error e := by
  constructor
  · exact ⟨_, sftp_fetch_loop_mk_ok h dest mk get hmk paths []⟩
  · unfold sftp_download_files sftp_fetch_loop
    rw [hbad]

/-- C3 amended witness: concrete batch where the second oracle fails on the
first file's directory. -/
theorem C3_amended_scoped_failures_witness :
    (∃ l, sftp_download_files H1 ["/b/f2"] "out" (Except.ok ()) mkOK getOK = Except.ok l) ∧
    sftp_download_files H1 ("/a/f1" :: ["/b/f2"]) "out" (Except.ok ()) mkFailA getOK =
      Except.error "mkdir denied" :=
  C3_amended_scoped_failures H1 "out" mkOK mkFailA getOK ["/b/f2"] "/a/f1" ["/b/f2"]
    "mkdir denied" (fun _ => rfl) rfl

/-- C4 counterexample: two files attempted, the first transfer fails; the
returned list holds a single pair — only the successful transfer — and no
record (with an ok flag or diagnostic) exists for the failed file. -/
theorem C4_counterexample :
    sftp_download_files H1 ["/a/f1", "/b/f2"] "out" (Except.ok ()) mkOK getFailF1 =
      Except.ok [("/b/f2", "out/h1/b/f2")] ∧
    ([("/b/f2", "out/h1/b/f2")] : List (String × String)).length ≠
      (["/a/f1", "/b/f2"] : List String).length :=
  ⟨rfl, by decide⟩

/-- C4 amended: when local directory creation succeeds throughout, the
retriever returns exactly the (remotePath, localPath) pairs of the files
whose transfer succeeded, in order; failed files contribute no record. -/
theorem C4_amended_successes_only (h : HostConfig) (paths : List String) (dest : String)
    (mk : String → Except String Unit) (get : String → String → Except String Unit)
    (hmk : ∀ d, mk d = Except.ok ()) :
    sftp_download_files h paths dest (Except.ok ()) mk get =
      Except.ok (paths.filterMap (fun r =>
        match get r (local_target dest h r) with
        | Except.ok _ => some (r, local_target dest h r)
        | Except.error _ => none)) := by
  unfold sftp_download_files
  rw [sftp_fetch_loop_mk_ok h dest mk get hmk paths []]
  simp

/-- C4 amended witness: the always-succeeding makedirs oracle discharges
the hypothesis at a concrete two-file batch with one failing transfer. -/
theorem C4_amended_successes_only_witness :
    sftp_download_files H1 ["/a/f1", "/b/f2"] "out" (Except.ok ()) mkOK getFailF1 =
      Except.ok ((["/a/f1", "/b/f2"] : List String).filterMap (fun r =>
        match getFailF1 r (local_target "out" H1 r) with
        | Except.ok _ => some (r, local_target "out" H1 r)
        | Except.error _ => none)) :=
  C4_amended_successes_only H1 ["/a/f1", "/b/f2"] "out" mkOK getFailF1 (fun _ => rfl)

/-- C5: the process exit signal is non-zero iff at least one host's exit
code classifies as RemoteError or ConnectionFailure; in particular when
every host classifies as NoMatch (which includes a run whose hosts all
have exit code 1) the signal is 0. -/
theorem C5_exit_signal (rs : List ResultRow) :
    (main_exit rs ≠ 0 ↔ ∃ r ∈ rs,
      classify r.exit_code = OutcomeStatus.RemoteError ∨
      classify r.exit_code = OutcomeStatus.ConnectionFailure) ∧
    ((∀ r ∈ rs, classify r.exit_code = OutcomeStatus.NoMatch) → main_exit rs = 0) := by
  have herr : error_hosts rs = 0 ↔ ∀ r ∈ rs, (r.exit_code = 0 ∨ r.exit_code = 1) := by
    unfold error_hosts
    rw [List.countP_eq_zero]
    simp [Decidable.or_iff_not_imp_left]
  constructor
  · unfold main_exit
    split_ifs with h0
    · simp only [ne_eq, not_true_eq_false, false_iff]
      rw [herr] at h0
      rintro ⟨r, hr, hcl⟩
      exact (classify_error_iff r.exit_code).mp hcl (h0 r hr)
    · simp only [ne_eq, one_ne_zero, not_false_eq_true, true_iff]
      rw [herr] at h0
      push_neg at h0
      obtain ⟨r, hr, hnr⟩ := h0
      refine ⟨r, hr, (classify_error_iff r.exit_code).mpr ?_⟩
      rintro (ha | hb)
      · exact hnr.1 ha
      · exact hnr.2 hb
  · intro hall
    have hz : error_hosts rs = 0 :=
      herr.mpr (fun r hr => Or.inr ((classify_no_match_iff r.exit_code).mp (hall r hr)))
    unfold main_exit
    rw [if_pos hz]

/-- C6: retrieval is invoked iff the download flag is 1, the host's exit
code is 0 and its matchedPaths list is non-empty; when the guard fails the
processing of the completed host is independent of the download oracle
(retrieval is never invoked), and the guard always fails when the outcome
classifies as NoMatch, RemoteError or ConnectionFailure. -/
theorem C6_retrieval_guard (download : Nat)
    (dl1 dl2 : HostConfig → List String → Except String (List (String × String)))
    (st : RunState) (host : HostConfig) (w : Except String HostResult) :
    (download_invoked download (fut_result host w) = true ↔
      (download = 1 ∧ (fut_result host w).exit_code = 0 ∧ (fut_result host w).paths ≠ [])) ∧
    (download_invoked download (fut_result host w) = false →
      process_completed download dl1 st host w =
        Except.ok ⟨st.results ++ [row_of (fut_result host w)], st.downloads_summary⟩ ∧
      process_completed download dl1 st host w = process_completed download dl2 st host w) ∧
    (classify (fut_result host w).exit_code ≠ OutcomeStatus.Matched →
      download_invoked download (fut_result host w) = false) := by
  refine ⟨?_, ?_, ?_⟩
  · unfold download_invoked
    exact decide_eq_true_iff
  · intro hf
    have hc : ¬ (download = 1 ∧ (fut_result host w).exit_code = 0 ∧
        (fut_result host w).paths ≠ []) := by
      simpa [download_invoked] using hf
    unfold process_completed
    rw [if_neg hc, if_neg hc]
    exact ⟨rfl, rfl⟩
  · intro hnm
    have h0 : (fut_result host w).exit_code ≠ 0 :=
      fun hh => hnm ((classify_matched_iff _).mpr hh)
    simp [download_invoked, h0]

/-- C7 evaluation at the failing input: the built command contains the
end-of-options marker exactly once and the path glob verbatim and
unquoted, but no `-F` flag, so the remote grep matches the term `a.b` as a
basic regular expression (the dot matches any character) rather than as a
literal string — contradicting the module docstring, which says the tool
uses `grep -F -l`. -/
theorem C7_command_not_literal :
    build_list_command "a.b" "/tmp/x*" =
      "bash -c " ++ sq ++ "LC_ALL=C grep -iln -- a.b /tmp/x*" ++ sq ∧
    count_substr (build_list_command "a.b" "/tmp/x*") "--" = 1 ∧
    count_substr (build_list_command "a.b" "/tmp/x*") "/tmp/x*" = 1 ∧
    count_substr (build_list_command "a.b" "/tmp/x*") "-F" = 0 := by
  decide

/-- C8 counterexample: the sentinel 255 is not distinct from every code a
remote command can return — a remote command exiting with status 255
produces exactly the sentinel value and is classified ConnectionFailure. -/
theorem C8_counterexample :
    (run_list_on_host H1 "s" "/g" (Except.error "timed out")).exit_code = 255 ∧
    (run_list_on_host H1 "s" "/g" (Except.ok exit255Exec)).exit_code = 255 ∧
    classify (run_list_on_host H1 "s" "/g" (Except.ok exit255Exec)).exit_code =
      OutcomeStatus.ConnectionFailure := by
  decide

/-- C8 amended: a session-establishment failure yields exit code 255 with
empty matchedPaths and an SSH/Network diagnostic, classified
ConnectionFailure and distinct from the recognized grep codes 0, 1 and 2;
the result does not depend on the search term or path pattern (the remote
command is never executed for that host); however 255 is not out-of-band
with respect to the codes a remote command can return. -/
theorem C8_amended_sentinel (h : HostConfig) (s1 g1 s2 g2 e : String) :
    run_list_on_host h s1 g1 (Except.error e) =
      ⟨h.hostname, 255, [], "SSH/Network error: " ++ e⟩ ∧
    run_list_on_host h s1 g1 (Except.error e) = run_list_on_host h s2 g2 (Except.error e) ∧
    classify 255 = OutcomeStatus.ConnectionFailure ∧
    classify 0 ≠ OutcomeStatus.ConnectionFailure ∧
    classify 1 ≠ OutcomeStatus.ConnectionFailure ∧
    classify 2 ≠ OutcomeStatus.ConnectionFailure :=
  ⟨rfl, rfl, by decide, by decide, by decide, by decide⟩

/-- C9: for a fixed multiset of per-host completions, the final summary
(hosts total, matched, no match, errors, files transferred) is identical
under every permutation of the completion order. -/
theorem C9_summary_order_independent (download : Nat)
    (dl : HostConfig → List String → Except String (List (String × String)))
    (order1 order2 : List (HostConfig × Except String HostResult))
    (st1 st2 : RunState)
    (hperm : order1.Perm order2)
    (h1 : main_loop download dl order1 ⟨[], []⟩ = Except.ok st1)
    (h2 : main_loop download dl order2 ⟨[], []⟩ = Except.ok st2) :
    summarize st1.results st1.downloads_summary =
      summarize st2.results st2.downloads_summary := by
  obtain ⟨hr1, hd1⟩ := main_loop_ok download dl order1 ⟨[], []⟩ st1 h1
  obtain ⟨hr2, hd2⟩ := main_loop_ok download dl order2 ⟨[], []⟩ st2 h2
  have hres1 : st1.results = order1.map (fun p => row_of (fut_result p.1 p.2)) := by
    simpa using hr1
  have hres2 : st2.results = order2.map (fun p => row_of (fut_result p.1 p.2)) := by
    simpa using hr2
  have hdl1 : st1.downloads_summary = order1.flatMap (dl_record download dl) := by
    simpa using hd1
  have hdl2 : st2.downloads_summary = order2.flatMap (dl_record download dl) := by
    simpa using hd2
  have hpr : st1.results.Perm st2.results := by
    rw [hres1, hres2]
    exact hperm.map _
  have hpd : st1.downloads_summary.Perm st2.downloads_summary := by
    rw [hdl1, hdl2]
    exact hperm.flatMap_right _
  unfold summarize matched_hosts no_match_hosts error_hosts
  rw [hpr.length_eq, hpd.length_eq, hpr.countP_eq, hpr.countP_eq, hpr.countP_eq]

/-- C9 witness: two completion orders that are swaps of each other, with a
matching host whose retrieval records one file. -/
theorem C9_summary_order_independent_witness :
    summarize (⟨[⟨"h1", 0, 1⟩, ⟨"h2", 1, 0⟩], [("h1", "/a", "local")]⟩ : RunState).results
      (⟨[⟨"h1", 0, 1⟩, ⟨"h2", 1, 0⟩], [("h1", "/a", "local")]⟩ : RunState).downloads_summary =
    summarize (⟨[⟨"h2", 1, 0⟩, ⟨"h1", 0, 1⟩], [("h1", "/a", "local")]⟩ : RunState).results
      (⟨[⟨"h2", 1, 0⟩, ⟨"h1", 0, 1⟩], [("h1", "/a", "local")]⟩ : RunState).downloads_summary :=
  C9_summary_order_independent 1 dlW [(H1, wA), (H2, wB)] [(H2, wB), (H1, wA)]
    ⟨[⟨"h1", 0, 1⟩, ⟨"h2", 1, 0⟩], [("h1", "/a", "local")]⟩
    ⟨[⟨"h2", 1, 0⟩, ⟨"h1", 0, 1⟩], [("h1", "/a", "local")]⟩
    (List.Perm.swap (H2, wB) (H1, wA) []) rfl rfl

/-- C10: a row is counted as no-match iff its exit code is 1 or its path
count is 0; a connection-failure row (code 255, zero paths) is counted in
both the no-match and the error counts, a row with exit code 0 and zero
paths counts as no-match and not as matched, and the matched, no-match and
error counts do not partition the host set. -/
theorem C10_no_match_counting (rs : List ResultRow) (t : ResultRow) :
    no_match_hosts (t :: rs) =
      (if t.exit_code = 1 ∨ t.n_paths = 0 then 1 else 0) + no_match_hosts rs ∧
    (∀ name : String,
      no_match_hosts [⟨name, 255, 0⟩] = 1 ∧ error_hosts [⟨name, 255, 0⟩] = 1 ∧
      classify 255 = OutcomeStatus.ConnectionFailure) ∧
    (∀ name : String,
      no_match_hosts [⟨name, 0, 0⟩] = 1 ∧ matched_hosts [⟨name, 0, 0⟩] = 0) ∧
    matched_hosts [⟨"cf", 255, 0⟩] + no_match_hosts [⟨"cf", 255, 0⟩] +
      error_hosts [⟨"cf", 255, 0⟩] ≠ ([⟨"cf", 255, 0⟩] : List ResultRow).length := by
  refine ⟨?_, ?_, ?_, by decide⟩
  · unfold no_match_hosts
    rw [List.countP_cons]
    by_cases hc : t.exit_code = 1 ∨ t.n_paths = 0
    · simp [hc, Nat.add_comm]
    · simp [hc]
  · intro name
    refine ⟨?_, ?_, by decide⟩ <;>
      simp [no_match_hosts, error_hosts, List.countP_cons]
  · intro name
    constructor <;> simp [no_match_hosts, matched_hosts, List.countP_cons]

end RemoteGrep
